import Mathlib

/-!
Verification of the reflector core of the Carta-Spawner repository
(`src/reflector.js`), as a shallow embedding in Lean 4.

The embedding models the mutable fields of `ResourceReflector`
(`resources`, `firstLoadComplete`, `_stopping`, `watchTask`) as an
explicit state record, the JS `Map` holding the mirror as an
association list in insertion order, and the async control flow of
`listAndUpdate` / `watchAndUpdate` / `start` as pure functions driven
by an explicit script of remote-call outcomes.
-/

namespace CartaSpawner

/-- The part of a Kubernetes object the reflector reads:
`ns` models `metadata.namespace` (absent on cluster-wide objects),
`name` models `metadata.name`, and `resourceVersion` models
`metadata.resourceVersion`. -/
structure KObj where
  ns : Option String
  name : String
  resourceVersion : String
  deriving DecidableEq, Repr

/-- JS template-literal rendering of a possibly-absent string:
an absent (`undefined`) value renders as the string `"undefined"`. -/
def jsTemplate : Option String → String
  | some s => s
  | none => "undefined"

/-- The map key computed by the code, both in `listAndUpdate`
(`` `${item.metadata.namespace}/${item.metadata.name}` ``, line 71)
and in the watch callback (line 105): the namespace segment is always
present, followed by `"/"` and the name. -/
def keyOf (o : KObj) : String :=
  jsTemplate o.ns ++ "/" ++ o.name

/-- `this.resources`: a JS `Map` from key to object, modelled as an
association list kept in insertion order with unique keys. -/
abbrev Store := List (String × KObj)

/-- `Map.prototype.get`. -/
def mapGet (m : Store) (k : String) : Option KObj :=
  (m.find? (fun p => p.1 == k)).map (fun p => p.2)

/-- `Map.prototype.set`: updates the entry in place when the key is
present, appends a new entry otherwise. -/
def mapSet : Store → String → KObj → Store
  | [], k, v => [(k, v)]
  | (k1, v1) :: rest, k, v =>
      if k1 = k then (k, v) :: rest else (k1, v1) :: mapSet rest k v

/-- `Map.prototype.delete`. -/
def mapDelete (m : Store) (k : String) : Store :=
  m.filter (fun p => p.1 != k)

/-- The event types delivered by the watch; the callback only
distinguishes `DELETED` from everything else (line 106). -/
inductive EventType where
  | ADDED
  | MODIFIED
  | DELETED
  deriving DecidableEq, Repr

/-- One watch notification: the `(type, obj)` pair passed to the
callback registered in `watchAndUpdate`. -/
structure WatchEvent where
  type : EventType
  obj : KObj
  deriving DecidableEq, Repr

/-- The watch callback of `watchAndUpdate` (lines 104-112): a
`DELETED` event deletes the key, any other event sets it. -/
def applyEvent (m : Store) (e : WatchEvent) : Store :=
  if e.type = EventType.DELETED then mapDelete m (keyOf e.obj)
  else mapSet m (keyOf e.obj) e.obj

/-- The events of one watch session, applied in arrival order. -/
def applyEvents (m : Store) (es : List WatchEvent) : Store :=
  es.foldl applyEvent m

/-- The cursor after a watch session: the callback overwrites
`resourceVersion` with `obj.metadata.resourceVersion` on every event
(line 111), so the last event wins; with no events the cursor is
unchanged. -/
def cursorAfter (rv : String) (es : List WatchEvent) : String :=
  es.foldl (fun _ e => e.obj.resourceVersion) rv

/-- The mutable fields of a `ResourceReflector` instance that the
claims are about. -/
structure ReflectorState where
  resources : Store
  firstLoadComplete : Bool
  stopping : Bool
  watchTask : Bool
  deriving DecidableEq, Repr

/-- The body of a successful list response: `res.body.items` and
`res.body.metadata.resourceVersion`. -/
structure ListResponse where
  items : List KObj
  resourceVersion : String
  deriving DecidableEq, Repr

/-- The effect on `this.resources` of the success path of
`listAndUpdate` (lines 69-73): `clear()` followed by one `set` per
item of the response, in order. -/
def buildStore (items : List KObj) : Store :=
  items.foldl (fun m it => mapSet m (keyOf it) it) []

deriving instance DecidableEq for Except

/-- What one call to `listAndUpdate` produces: the new instance
state, the value returned or error thrown, and how many times
`this.onFailure` was invoked during the call. -/
structure ListOutcome where
  newState : ReflectorState
  result : Except String String
  onFailureCalls : Nat
  deriving DecidableEq, Repr

/-- `listAndUpdate` (lines 51-81), driven by the outcome `res` of the
remote list call. On success the store is cleared and repopulated,
`firstLoadComplete` is set, and the collection resourceVersion is
returned. On failure the error is logged, `onFailure` is invoked when
configured and `firstLoadComplete` is still false, and the error is
rethrown; the state is untouched. -/
def listAndUpdate (onFailurePresent : Bool) (s : ReflectorState)
    (res : Except String ListResponse) : ListOutcome :=
  match res with
  | Except.ok r =>
      { newState :=
          { s with resources := buildStore r.items, firstLoadComplete := true }
        result := Except.ok r.resourceVersion
        onFailureCalls := 0 }
  | Except.error e =>
      { newState := s
        result := Except.error e
        onFailureCalls := if !s.firstLoadComplete && onFailurePresent then 1 else 0 }

/-- Externally visible actions of the reconciliation loop: a backoff
sleep of a given duration, or an invocation of the failure callback. -/
inductive TraceItem where
  | sleep (ms : Nat)
  | escalate
  deriving DecidableEq, Repr

/-- The outcome of one iteration of the `while` loop of
`watchAndUpdate`: either the `listAndUpdate` call throws, or it
succeeds with response `resp` and the subsequent watch session
delivers `events` and then ends (normally when `endErr = none`,
by throwing otherwise). -/
inductive IterOutcome where
  | listFail (e : String)
  | listOkWatch (resp : ListResponse) (events : List WatchEvent)
      (endErr : Option String)
  deriving DecidableEq, Repr

/-- Result of running `watchAndUpdate` over a script of iteration
outcomes: final state, final `resourceVersion` variable, the trace of
sleeps and failure-callback calls, and whether the loop ended on the
permanent-failure `break`. -/
structure LoopResult where
  state : ReflectorState
  rv : String
  trace : List TraceItem
  failedPermanently : Bool
  deriving DecidableEq, Repr

/-- `watchAndUpdate` (lines 83-130), driven by a script: each entry
decides how the remote calls of one loop iteration behave, and the
run ends when the script is exhausted. On an error the delay is
doubled first (`(delay *= 2) > 30000`, line 122); a doubled delay
above 30000 invokes `onFailure` (when configured) and breaks out of
the loop, otherwise the loop sleeps for the doubled delay and
retries. A normal watch end resets the delay to 100. -/
def runLoop (p : Bool) (s : ReflectorState) (rv : String) (delay : Nat) :
    List IterOutcome → LoopResult
  | [] => ⟨s, rv, [], false⟩
  | o :: rest =>
    if s.stopping then ⟨s, rv, [], false⟩
    else
      match o with
      | IterOutcome.listFail _ =>
          let escal : List TraceItem :=
            if !s.firstLoadComplete && p then [TraceItem.escalate] else []
          let d := delay * 2
          if 30000 < d then
            ⟨s, rv, escal ++ (if p then [TraceItem.escalate] else []), true⟩
          else
            let r := runLoop p s rv d rest
            ⟨r.state, r.rv, escal ++ TraceItem.sleep d :: r.trace,
              r.failedPermanently⟩
      | IterOutcome.listOkWatch resp events endErr =>
          let s1 : ReflectorState :=
            { s with resources := applyEvents (buildStore resp.items) events
                     firstLoadComplete := true }
          let rv1 := cursorAfter resp.resourceVersion events
          match endErr with
          | none =>
              let r := runLoop p s1 rv1 100 rest
              ⟨r.state, r.rv, r.trace, r.failedPermanently⟩
          | some _ =>
              let d := delay * 2
              if 30000 < d then
                ⟨s1, rv1, if p then [TraceItem.escalate] else [], true⟩
              else
                let r := runLoop p s1 rv1 d rest
                ⟨r.state, r.rv, TraceItem.sleep d :: r.trace,
                  r.failedPermanently⟩

/-- `start` (lines 132-136): throws synchronously when `watchTask` is
already set, otherwise runs the first `listAndUpdate` and, on its
success, records the loop handle. -/
def start (p : Bool) (s : ReflectorState)
    (listRes : Except String ListResponse) :
    ReflectorState × Except String Unit :=
  if s.watchTask then (s, Except.error "Watcher already running")
  else
    let out := listAndUpdate p s listRes
    match out.result with
    | Except.ok _ => ({ out.newState with watchTask := true }, Except.ok ())
    | Except.error e => (out.newState, Except.error e)

/-! ## Lemmas about the store operations -/

theorem mapGet_cons (k1 : String) (v1 : KObj) (t : Store) (k : String) :
    mapGet ((k1, v1) :: t) k = if k1 = k then some v1 else mapGet t k := by
  by_cases h : k1 = k <;> simp [mapGet, List.find?_cons, h]

theorem mapGet_mapSet_self (m : Store) (k : String) (v : KObj) :
    mapGet (mapSet m k v) k = some v := by
  induction m with
  | nil => simp [mapSet, mapGet_cons]
  | cons p t ih =>
      obtain ⟨k1, v1⟩ := p
      by_cases h : k1 = k
      · simp [mapSet, h, mapGet_cons]
      · simp [mapSet, h, mapGet_cons, ih]

theorem mapGet_mapSet_ne (m : Store) (k k' : String) (v : KObj)
    (h : k' ≠ k) : mapGet (mapSet m k v) k' = mapGet m k' := by
  induction m with
  | nil => simp [mapSet, mapGet_cons, mapGet, Ne.symm h]
  | cons p t ih =>
      obtain ⟨k1, v1⟩ := p
      by_cases h1 : k1 = k
      · subst h1
        simp [mapSet, mapGet_cons, Ne.symm h]
      · simp [mapSet, h1, mapGet_cons, ih]

theorem mapGet_mapDelete_self (m : Store) (k : String) :
    mapGet (mapDelete m k) k = none := by
  induction m with
  | nil => simp [mapDelete, mapGet]
  | cons p t ih =>
      obtain ⟨k1, v1⟩ := p
      by_cases h : k1 = k
      · simp [mapDelete, List.filter_cons, h] at ih ⊢
        exact ih
      · simp [mapDelete, List.filter_cons, h, mapGet_cons] at ih ⊢
        exact ih

theorem mapGet_mapDelete_ne (m : Store) (k k' : String) (h : k' ≠ k) :
    mapGet (mapDelete m k) k' = mapGet m k' := by
  induction m with
  | nil => simp [mapDelete]
  | cons p t ih =>
      obtain ⟨k1, v1⟩ := p
      by_cases h1 : k1 = k
      · subst h1
        simp [mapDelete, List.filter_cons, mapGet_cons, Ne.symm h] at ih ⊢
        exact ih
      · simp [mapDelete, List.filter_cons, h1, mapGet_cons] at ih ⊢
        by_cases h2 : k1 = k' <;> simp [h2, ih]

theorem mapDelete_of_get_none (m : Store) (k : String)
    (h : mapGet m k = none) : mapDelete m k = m := by
  induction m with
  | nil => rfl
  | cons p t ih =>
      obtain ⟨k1, v1⟩ := p
      rw [mapGet_cons] at h
      by_cases h1 : k1 = k
      · simp [h1] at h
      · simp [h1] at h
        simp [mapDelete, List.filter_cons, h1] at ih ⊢
        exact ih h

theorem mapDelete_mapDelete (m : Store) (k : String) :
    mapDelete (mapDelete m k) k = mapDelete m k :=
  mapDelete_of_get_none _ _ (mapGet_mapDelete_self m k)

theorem mapGet_buildStore_aux_not_mem (items : List KObj) (m : Store)
    (k : String) (h : ∀ it ∈ items, keyOf it ≠ k) :
    mapGet (items.foldl (fun acc it => mapSet acc (keyOf it) it) m) k
      = mapGet m k := by
  induction items generalizing m with
  | nil => rfl
  | cons it0 t ih =>
      simp only [List.foldl_cons]
      rw [ih _ (fun it hit => h it (List.mem_cons_of_mem _ hit))]
      exact mapGet_mapSet_ne _ _ _ _ (fun h' => h it0 (List.mem_cons_self _ _) h'.symm)

theorem mapGet_buildStore_mem_aux (items : List KObj) (m : Store)
    (hnd : (items.map keyOf).Nodup) (it : KObj) (hit : it ∈ items) :
    mapGet (items.foldl (fun acc it => mapSet acc (keyOf it) it) m) (keyOf it)
      = some it := by
  induction items generalizing m with
  | nil => cases hit
  | cons it0 t ih =>
      simp only [List.map_cons, List.nodup_cons] at hnd
      rcases List.mem_cons.mp hit with h0 | h0
      · subst h0
        simp only [List.foldl_cons]
        rw [mapGet_buildStore_aux_not_mem t _ _
          (fun x hx hkey => hnd.1 (List.mem_map.mpr ⟨x, hx, hkey⟩))]
        exact mapGet_mapSet_self _ _ _
      · exact ih (mapSet m (keyOf it0) it0) hnd.2 h0

theorem mapGet_buildStore_mem (items : List KObj)
    (hnd : (items.map keyOf).Nodup) (it : KObj) (hit : it ∈ items) :
    mapGet (buildStore items) (keyOf it) = some it :=
  mapGet_buildStore_mem_aux items [] hnd it hit

theorem mapGet_buildStore_some_aux (items : List KObj) (m : Store)
    (k : String) (v : KObj)
    (h : mapGet (items.foldl (fun acc it => mapSet acc (keyOf it) it) m) k
      = some v) :
    (v ∈ items ∧ keyOf v = k) ∨ mapGet m k = some v := by
  induction items generalizing m with
  | nil => exact Or.inr h
  | cons it0 t ih =>
      simp only [List.foldl_cons] at h
      rcases ih _ h with h1 | h1
      · exact Or.inl ⟨List.mem_cons_of_mem _ h1.1, h1.2⟩
      · by_cases hk : k = keyOf it0
        · subst hk
          rw [mapGet_mapSet_self] at h1
          cases h1
          exact Or.inl ⟨List.mem_cons_self _ _, rfl⟩
        · rw [mapGet_mapSet_ne _ _ _ _ hk] at h1
          exact Or.inr h1

theorem mapGet_buildStore_some (items : List KObj) (k : String) (v : KObj)
    (h : mapGet (buildStore items) k = some v) :
    v ∈ items ∧ keyOf v = k := by
  rcases mapGet_buildStore_some_aux items [] k v h with h1 | h1
  · exact h1
  · simp [mapGet] at h1


/-! ## Claim theorems -/

/-- C1 counterexample: a cluster-wide (namespace-omitted) object named
"x" is not stored under the key "x". Both the Watch upsert and the
Bootstrap insertion store it under "undefined/x": the namespace
segment of the key is never dropped, contradicting "name alone for
cluster-wide resources". -/
theorem c1_counterexample :
    mapGet (applyEvent [] ⟨EventType.ADDED, ⟨none, "x", "1"⟩⟩) "x" = none ∧
    mapGet (buildStore [⟨none, "x", "1"⟩]) "x" = none ∧
    mapGet (applyEvent [] ⟨EventType.ADDED, ⟨none, "x", "1"⟩⟩) "undefined/x"
      = some ⟨none, "x", "1"⟩ ∧
    mapGet (buildStore [⟨none, "x", "1"⟩]) "undefined/x"
      = some ⟨none, "x", "1"⟩ := by decide

/-- C1 (amended): for every object applied to the Mirror Store, by
Bootstrap or by a Watch upsert, the entry's key is always the
namespace segment followed by "/" and the name, where an absent
namespace (cluster-wide resources) renders as the string "undefined";
the name alone is never used as a key. -/
theorem c1_key_scheme (m : Store) (e : WatchEvent) (items : List KObj)
    (it : KObj) (hit : it ∈ items) (hnd : (items.map keyOf).Nodup)
    (he : e.type ≠ EventType.DELETED) :
    mapGet (applyEvent m e) (jsTemplate e.obj.ns ++ "/" ++ e.obj.name)
      = some e.obj ∧
    mapGet (buildStore items) (jsTemplate it.ns ++ "/" ++ it.name)
      = some it := by
  constructor
  · show mapGet (applyEvent m e) (keyOf e.obj) = some e.obj
    unfold applyEvent
    rw [if_neg he]
    exact mapGet_mapSet_self _ _ _
  · exact mapGet_buildStore_mem items hnd it hit

/-- Witness for C1: the amended key scheme evaluated on a cluster-wide
object and a namespaced item. -/
theorem c1_witness :
    mapGet (applyEvent [] ⟨EventType.ADDED, ⟨none, "x", "1"⟩⟩)
        (jsTemplate (none : Option String) ++ "/" ++ "x")
      = some ⟨none, "x", "1"⟩ ∧
    mapGet (buildStore [⟨some "a", "y", "2"⟩])
        (jsTemplate (some "a") ++ "/" ++ "y") = some ⟨some "a", "y", "2"⟩ :=
  c1_key_scheme [] ⟨EventType.ADDED, ⟨none, "x", "1"⟩⟩
    [⟨some "a", "y", "2"⟩] ⟨some "a", "y", "2"⟩ (by decide) (by decide)
    (by decide)

/-- C2 counterexample: with initial delay 100ms, after a single
Bootstrap failure the observed sleep is 200ms, not 100ms — the delay
is doubled before the first sleep, so the claimed sequence
100, 200, 400, ... is wrong in its first element. -/
theorem c2_counterexample :
    (runLoop true ⟨[], true, false, true⟩ "0" 100
        [IterOutcome.listFail "e"]).trace = [TraceItem.sleep 200] ∧
    [TraceItem.sleep 200] ≠ [TraceItem.sleep 100] := by decide

/-- C2 (amended): when Bootstrap fails repeatedly with initial delay
100ms and ceiling 30000ms, the observed sleeps are 200, 400, 800,
..., 25600 — doubling each time, starting from the doubled initial
delay. Eight failures sleep eight times without permanent failure;
on the ninth failure the doubled delay 51200 exceeds 30000, so the
loop escalates once and terminates, ignoring the rest of the script;
every delay actually slept is <= 30000. -/
theorem c2_backoff (s : ReflectorState) (rv : String)
    (rest : List IterOutcome)
    (h1 : s.stopping = false) (h2 : s.firstLoadComplete = true) :
    runLoop true s rv 100
        [IterOutcome.listFail "e", IterOutcome.listFail "e",
         IterOutcome.listFail "e", IterOutcome.listFail "e",
         IterOutcome.listFail "e", IterOutcome.listFail "e",
         IterOutcome.listFail "e", IterOutcome.listFail "e"]
      = ⟨s, rv,
          [TraceItem.sleep 200, TraceItem.sleep 400, TraceItem.sleep 800,
           TraceItem.sleep 1600, TraceItem.sleep 3200, TraceItem.sleep 6400,
           TraceItem.sleep 12800, TraceItem.sleep 25600], false⟩ ∧
    runLoop true s rv 100
        ([IterOutcome.listFail "e", IterOutcome.listFail "e",
          IterOutcome.listFail "e", IterOutcome.listFail "e",
          IterOutcome.listFail "e", IterOutcome.listFail "e",
          IterOutcome.listFail "e", IterOutcome.listFail "e",
          IterOutcome.listFail "e"] ++ rest)
      = ⟨s, rv,
          [TraceItem.sleep 200, TraceItem.sleep 400, TraceItem.sleep 800,
           TraceItem.sleep 1600, TraceItem.sleep 3200, TraceItem.sleep 6400,
           TraceItem.sleep 12800, TraceItem.sleep 25600,
           TraceItem.escalate], true⟩ ∧
    ∀ d, TraceItem.sleep d ∈
        [TraceItem.sleep 200, TraceItem.sleep 400, TraceItem.sleep 800,
         TraceItem.sleep 1600, TraceItem.sleep 3200, TraceItem.sleep 6400,
         TraceItem.sleep 12800, TraceItem.sleep 25600] → d ≤ 30000 := by
  refine ⟨by simp [runLoop, h1, h2], by simp [runLoop, h1, h2], ?_⟩
  intro d hd
  simp only [List.mem_cons, List.not_mem_nil, or_false] at hd
  rcases hd with h | h | h | h | h | h | h | h <;>
    (injection h with h; omega)

/-- Witness for C2: the amended backoff run evaluated from a concrete
already-synced state. -/
theorem c2_witness :
    runLoop true ⟨[], true, false, true⟩ "0" 100
        [IterOutcome.listFail "e", IterOutcome.listFail "e",
         IterOutcome.listFail "e", IterOutcome.listFail "e",
         IterOutcome.listFail "e", IterOutcome.listFail "e",
         IterOutcome.listFail "e", IterOutcome.listFail "e"]
      = ⟨⟨[], true, false, true⟩, "0",
          [TraceItem.sleep 200, TraceItem.sleep 400, TraceItem.sleep 800,
           TraceItem.sleep 1600, TraceItem.sleep 3200, TraceItem.sleep 6400,
           TraceItem.sleep 12800, TraceItem.sleep 25600], false⟩ :=
  (c2_backoff ⟨[], true, false, true⟩ "0" [] rfl rfl).1

/-- C3: after a successful Bootstrap whose response items have
pairwise-distinct keys, the Mirror Store contains exactly the
objects of that snapshot: every item of the response is mirrored
under its key, and everything mirrored is an item of the response
under its own key — in particular no entry of any prior cycle
survives, whatever store the state held before. -/
theorem c3_bootstrap_exact (p : Bool) (s : ReflectorState)
    (resp : ListResponse) (hnd : (resp.items.map keyOf).Nodup) :
    (∀ it ∈ resp.items,
      mapGet (listAndUpdate p s (Except.ok resp)).newState.resources
        (keyOf it) = some it) ∧
    (∀ k v,
      mapGet (listAndUpdate p s (Except.ok resp)).newState.resources k
          = some v →
      v ∈ resp.items ∧ keyOf v = k) := by
  constructor
  · intro it hit
    exact mapGet_buildStore_mem resp.items hnd it hit
  · intro k v h
    exact mapGet_buildStore_some resp.items k v h

/-- Witness for C3: the exact-snapshot property evaluated on a state
holding a stale entry and a two-item response. -/
theorem c3_witness :
    mapGet (listAndUpdate true
        ⟨[("old/z", ⟨some "old", "z", "0"⟩)], true, false, true⟩
        (Except.ok ⟨[⟨some "a", "x", "1"⟩, ⟨some "a", "y", "1"⟩], "1"⟩)
      ).newState.resources (keyOf ⟨some "a", "x", "1"⟩)
      = some ⟨some "a", "x", "1"⟩ :=
  (c3_bootstrap_exact true
      ⟨[("old/z", ⟨some "old", "z", "0"⟩)], true, false, true⟩
      ⟨[⟨some "a", "x", "1"⟩, ⟨some "a", "y", "1"⟩], "1"⟩ (by decide)).1
    ⟨some "a", "x", "1"⟩ (by decide)

/-- C4: in the scenario where Bootstrap returns the single item with
key "a/x" at version "1" and the Watch session then emits an upsert
of "a/y" at version "2" followed by a removal of "a/x" at version
"3", the final Mirror Store holds exactly the entry "a/y" at version
"2" and the cursor equals "3". -/
theorem c4_scenario :
    (runLoop true ⟨[], false, false, false⟩ "0" 100
        [IterOutcome.listOkWatch ⟨[⟨some "a", "x", "1"⟩], "1"⟩
          [⟨EventType.ADDED, ⟨some "a", "y", "2"⟩⟩,
           ⟨EventType.DELETED, ⟨some "a", "x", "3"⟩⟩] none]).state.resources
      = [("a/y", ⟨some "a", "y", "2"⟩)] ∧
    (runLoop true ⟨[], false, false, false⟩ "0" 100
        [IterOutcome.listOkWatch ⟨[⟨some "a", "x", "1"⟩], "1"⟩
          [⟨EventType.ADDED, ⟨some "a", "y", "2"⟩⟩,
           ⟨EventType.DELETED, ⟨some "a", "x", "3"⟩⟩] none]).rv
      = "3" := by decide

/-- C5: for every store and every notification, a removal deletes the
entry for its key and leaves other keys alone, removal of an absent
key is a no-op on the whole store, applying the same removal twice
equals applying it once, and an upsert replaces the entry for its
key by the full incoming object while leaving other keys alone. -/
theorem c5_event_algebra (m : Store) (e : WatchEvent) :
    (e.type = EventType.DELETED →
      mapGet (applyEvent m e) (keyOf e.obj) = none ∧
      (mapGet m (keyOf e.obj) = none → applyEvent m e = m) ∧
      applyEvent (applyEvent m e) e = applyEvent m e) ∧
    (e.type ≠ EventType.DELETED →
      mapGet (applyEvent m e) (keyOf e.obj) = some e.obj) ∧
    (∀ k, k ≠ keyOf e.obj → mapGet (applyEvent m e) k = mapGet m k) := by
  refine ⟨?_, ?_, ?_⟩
  · intro h
    simp only [applyEvent, h, if_pos]
    exact ⟨mapGet_mapDelete_self m (keyOf e.obj),
      fun h0 => mapDelete_of_get_none m (keyOf e.obj) h0,
      mapDelete_mapDelete m (keyOf e.obj)⟩
  · intro h
    simp only [applyEvent, if_neg h]
    exact mapGet_mapSet_self m (keyOf e.obj) e.obj
  · intro k hk
    unfold applyEvent
    by_cases h : e.type = EventType.DELETED
    · rw [if_pos h]
      exact mapGet_mapDelete_ne m (keyOf e.obj) k hk
    · rw [if_neg h]
      exact mapGet_mapSet_ne m (keyOf e.obj) k e.obj hk

/-- Witness for C5: the notification algebra evaluated on a concrete
store, one removal and one upsert. -/
theorem c5_witness :
    applyEvent (applyEvent [("a/x", ⟨some "a", "x", "1"⟩)]
        ⟨EventType.DELETED, ⟨some "a", "x", "3"⟩⟩)
        ⟨EventType.DELETED, ⟨some "a", "x", "3"⟩⟩
      = applyEvent [("a/x", ⟨some "a", "x", "1"⟩)]
        ⟨EventType.DELETED, ⟨some "a", "x", "3"⟩⟩ ∧
    mapGet (applyEvent [("a/x", ⟨some "a", "x", "1"⟩)]
        ⟨EventType.MODIFIED, ⟨some "a", "x", "9"⟩⟩) (keyOf ⟨some "a", "x", "9"⟩)
      = some ⟨some "a", "x", "9"⟩ :=
  ⟨((c5_event_algebra [("a/x", ⟨some "a", "x", "1"⟩)]
      ⟨EventType.DELETED, ⟨some "a", "x", "3"⟩⟩).1 (by decide)).2.2,
   (c5_event_algebra [("a/x", ⟨some "a", "x", "1"⟩)]
      ⟨EventType.MODIFIED, ⟨some "a", "x", "9"⟩⟩).2.1 (by decide)⟩

/-- C6: whenever a loop iteration fails and the doubled delay exceeds
the 30000ms ceiling, the loop invokes the failure callback exactly
once (the trace is the single escalation), reports permanent failure,
and terminates without processing any further iterations — the result
does not depend on the rest of the script. -/
theorem c6_permanent_failure (s : ReflectorState) (rv : String) (d : Nat)
    (e : String) (rest : List IterOutcome)
    (h1 : s.stopping = false) (h2 : s.firstLoadComplete = true)
    (h3 : 30000 < d * 2) :
    runLoop true s rv d (IterOutcome.listFail e :: rest)
      = ⟨s, rv, [TraceItem.escalate], true⟩ := by
  simp [runLoop, h1, h2, h3]

/-- Witness for C6: permanent failure evaluated at delay 25600 from a
concrete synced state, with a nonempty ignored remainder. -/
theorem c6_witness :
    runLoop true ⟨[], true, false, true⟩ "5" 25600
        (IterOutcome.listFail "boom" :: [IterOutcome.listFail "later"])
      = ⟨⟨[], true, false, true⟩, "5", [TraceItem.escalate], true⟩ :=
  c6_permanent_failure ⟨[], true, false, true⟩ "5" 25600 "boom"
    [IterOutcome.listFail "later"] rfl rfl (by decide)

/-- C7: a failing Bootstrap always rethrows its error to the caller;
when `firstLoadComplete` is still false the configured failure
callback is additionally invoked (exactly once), and when
`firstLoadComplete` is already true the Bootstrap itself does not
invoke the callback. -/
theorem c7_failure_escalation (s : ReflectorState) (e : String) :
    (listAndUpdate true s (Except.error e)).result = Except.error e ∧
    (s.firstLoadComplete = false →
      (listAndUpdate true s (Except.error e)).onFailureCalls = 1) ∧
    (s.firstLoadComplete = true →
      (listAndUpdate true s (Except.error e)).onFailureCalls = 0) := by
  refine ⟨rfl, ?_, ?_⟩ <;> intro h <;> simp [listAndUpdate, h]

/-- Witness for C7: the escalation rule evaluated before and after the
first successful sync. -/
theorem c7_witness :
    (listAndUpdate true ⟨[], false, false, false⟩
        (Except.error "down")).onFailureCalls = 1 ∧
    (listAndUpdate true ⟨[], true, false, true⟩
        (Except.error "down")).onFailureCalls = 0 :=
  ⟨(c7_failure_escalation ⟨[], false, false, false⟩ "down").2.1 rfl,
   (c7_failure_escalation ⟨[], true, false, true⟩ "down").2.2 rfl⟩

/-- C8: calling `start` while the loop handle is already set fails
synchronously with the usage error and returns the state completely
unchanged — the Mirror Store and the running loop handle are
unaffected, whatever the outcome of the remote list would have
been. -/
theorem c8_start_reentry (p : Bool) (s : ReflectorState)
    (r : Except String ListResponse) (h : s.watchTask = true) :
    start p s r = (s, Except.error "Watcher already running") := by
  simp [start, h]

/-- Witness for C8: the double-start usage error evaluated on a
running reflector holding one mirrored entry. -/
theorem c8_witness :
    start true ⟨[("a/x", ⟨some "a", "x", "1"⟩)], true, false, true⟩
        (Except.ok ⟨[], "9"⟩)
      = (⟨[("a/x", ⟨some "a", "x", "1"⟩)], true, false, true⟩,
         Except.error "Watcher already running") :=
  c8_start_reentry true ⟨[("a/x", ⟨some "a", "x", "1"⟩)], true, false, true⟩
    (Except.ok ⟨[], "9"⟩) rfl

/-- C9: within one Bootstrap-then-Watch cycle the store is the watch
events folded, in arrival order, over the store produced by the
Bootstrap — so the wholesale replacement precedes every Watch-driven
mutation; and event application is strictly sequential: a session
processes its head event first and decomposes over concatenation with
no reordering, skipping or batching. -/
theorem c9_ordering (p : Bool) (s : ReflectorState) (rv : String)
    (d : Nat) (resp : ListResponse) (events : List WatchEvent)
    (h : s.stopping = false) :
    (runLoop p s rv d
        [IterOutcome.listOkWatch resp events none]).state.resources
      = applyEvents (buildStore resp.items) events ∧
    (∀ (m : Store) (e : WatchEvent) (es : List WatchEvent),
      applyEvents m (e :: es) = applyEvents (applyEvent m e) es) ∧
    (∀ (m : Store) (es1 es2 : List WatchEvent),
      applyEvents m (es1 ++ es2) = applyEvents (applyEvents m es1) es2) := by
  refine ⟨by simp [runLoop, h], fun m e es => rfl, fun m es1 es2 => ?_⟩
  simp [applyEvents, List.foldl_append]

/-- Witness for C9: the cycle ordering evaluated on a concrete
bootstrap snapshot followed by one upsert. -/
theorem c9_witness :
    (runLoop true ⟨[], false, false, false⟩ "0" 100
        [IterOutcome.listOkWatch ⟨[⟨some "a", "x", "1"⟩], "1"⟩
          [⟨EventType.ADDED, ⟨some "a", "y", "2"⟩⟩] none]).state.resources
      = applyEvents (buildStore [⟨some "a", "x", "1"⟩])
          [⟨EventType.ADDED, ⟨some "a", "y", "2"⟩⟩] :=
  (c9_ordering true ⟨[], false, false, false⟩ "0" 100
      ⟨[⟨some "a", "x", "1"⟩], "1"⟩
      [⟨EventType.ADDED, ⟨some "a", "y", "2"⟩⟩] rfl).1

/-- C10: a Bootstrap attempt whose remote list call fails leaves the
whole reflector state exactly as it was — Mirror Store contents,
`firstLoadComplete` and all — and a failing loop iteration likewise
leaves the state and the resourceVersion cursor unchanged. -/
theorem c10_list_failure_atomic (p : Bool) (s : ReflectorState)
    (rv : String) (d : Nat) (e : String) :
    (listAndUpdate p s (Except.error e)).newState = s ∧
    (runLoop p s rv d [IterOutcome.listFail e]).state = s ∧
    (runLoop p s rv d [IterOutcome.listFail e]).rv = rv := by
  refine ⟨rfl, ?_, ?_⟩ <;>
  · by_cases hs : s.stopping <;> by_cases hd : 30000 < d * 2 <;>
      simp [runLoop, hs, hd]

end CartaSpawner
